import Mathlib

/-!
Shallow embedding of the LDP protocol core of ldp-service (src/service.js).
The source file holds two near-duplicate drafts of the Express controller;
the second draft (service.js lines 782-1480 of the concatenated source) is
the operational one — the first draft aborts on undefined identifiers
(`rdfllib`, `getInteractionMocel`, `turtle`, `jsonld`) on every write path —
so the definitions below embed the second draft, with notes where the first
draft differs in a way a claim depends on.

Modelling conventions:
- RDF terms are strings; a graph is a list of subject/predicate/object
  triples (rdflib.js IndexedFormula statements).
- The asynchronous storage backend (storage.js) is pluggable and not part of
  this repository's src, so each backend call is a parameter of the handler
  model: `reserve` for db.reserveURI (returning an HTTP-ish status, 201 =
  reserved), `getMembershipTriples` for db.getMembershipTriples (modelled as
  always succeeding with a list of member URIs), and plain status numbers
  for the statuses db.read/db.update report to their callbacks.
- Serialization (rdflib.serialize) and MD5 are opaque: handler models take a
  `serializeDoc : String → Document → String` (media type, document to
  serialized content) and `md5hex : String → String` parameter.
- A JavaScript property that is absent reads as `undefined`; where the
  source uses such a value as an RDF term without checking (it does), the
  model substitutes the string constant `jsUndefined`.
- `Date.now()` is a `now : Nat` parameter.
-/

/- Modelled from the spec: the LDP vocabulary module `vocab/ldp.js` is not
under src/; its constants are the LDP namespace IRIs, pinned by the
`rdflib.Namespace('http://www.w3.org/ns/ldp#')` declaration in service.js
and the IRIs named in the spec. -/
namespace ldp

def Resource : String := "http://www.w3.org/ns/ldp#Resource"

def RDFSource : String := "http://www.w3.org/ns/ldp#RDFSource"

def BasicContainer : String := "http://www.w3.org/ns/ldp#BasicContainer"

def DirectContainer : String := "http://www.w3.org/ns/ldp#DirectContainer"

def contains : String := "http://www.w3.org/ns/ldp#contains"

def membershipResource : String := "http://www.w3.org/ns/ldp#membershipResource"

def hasMemberRelation : String := "http://www.w3.org/ns/ldp#hasMemberRelation"

def isMemberOfRelation : String := "http://www.w3.org/ns/ldp#isMemberOfRelation"

def PreferContainment : String := "http://www.w3.org/ns/ldp#PreferContainment"

def PreferMembership : String := "http://www.w3.org/ns/ldp#PreferMembership"

def PreferMinimalContainer : String := "http://www.w3.org/ns/ldp#PreferMinimalContainer"

def PreferEmptyContainer : String := "http://www.w3.org/ns/ldp#PreferEmptyContainer"

end ldp

/- Modelled from the spec: `vocab/rdf.js` is not under src/; `rdf.type` is
the standard rdf:type IRI, pinned by the RDF namespace declared in
service.js. -/
namespace rdf

def type : String := "http://www.w3.org/1999/02/22-rdf-syntax-ns#type"

end rdf

/- Modelled from the spec: `media.js` is not under src/; the four media
types are named in spec section 6. -/
namespace media

def turtle : String := "text/turtle"

def jsonld : String := "application/ld+json"

def json : String := "application/json"

def rdfxml : String := "application/rdf+xml"

end media

/-- Placeholder term for a JavaScript `undefined` read into an RDF term
position (the source does this without checking). -/
def jsUndefined : String := "undefined"

/-- An rdflib.js statement: (subject, predicate, object), all terms here
IRIs rendered as strings. -/
structure Triple where
  subject : String
  predicate : String
  object : String
deriving DecidableEq, Repr

/-- One entry of `document.membershipResourceFor`: a Direct Container that
names the document as its membershipResource, with that container's
hasMemberRelation when it declares one. -/
structure MemberPattern where
  container : String
  hasMemberRelation : Option String := none
deriving DecidableEq, Repr

/-- An in-memory resource: the rdflib.js IndexedFormula plus the dynamic
properties service.js and the storage layer attach to it. The second draft
uses `document.uri`; the first draft (and `removeMembership` /
`insertMembership`, shared text in both drafts) use `document.name`, which
may be absent (`none` = JS undefined). -/
structure Document where
  uri : String := ""
  name : Option String := none
  triples : List Triple := []
  interactionModel : Option String := none
  membershipResource : Option String := none
  hasMemberRelation : Option String := none
  isMemberOfRelation : Option String := none
  membershipResourceFor : Option (List MemberPattern) := none
deriving DecidableEq, Repr

/-- The request data the LDP handlers consume: effective URL and the
headers read via req.get; `none` is an absent header. -/
structure Request where
  fullURL : String := ""
  contentType : Option String := none
  ifMatch : Option String := none
  prefer : Option String := none
  link : Option String := none
  slug : Option String := none
deriving DecidableEq, Repr

/-- Express req.is(mediaType): the request Content-Type names the given
media type (modelled as exact match of the type token). -/
def reqIs (req : Request) (mediaType : String) : Bool :=
  req.contentType == some mediaType

/-- The double-quote character (written via its code point). -/
def quoteChar : Char := Char.ofNat 34

/-- JavaScript regex `\s`: whitespace characters per ECMA-262
(ASCII whitespace plus the Unicode space separators, NEL-family and BOM). -/
def isSpaceJS (c : Char) : Bool :=
  c = ' ' || c.toNat = 9 || c.toNat = 10 || c.toNat = 11 || c.toNat = 12 || c.toNat = 13 ||
  c.toNat = 0xA0 || c.toNat = 0x1680 || (0x2000 ≤ c.toNat && c.toNat ≤ 0x200A) ||
  c.toNat = 0x2028 || c.toNat = 0x2029 || c.toNat = 0x202F || c.toNat = 0x205F ||
  c.toNat = 0x3000 || c.toNat = 0xFEFF

/-- Strip an expected literal from the front of a character list, returning
the remainder on success. -/
def stripLit : List Char → List Char → Option (List Char)
  | [], s => some s
  | _ :: _, [] => none
  | c :: cs, d :: ds => if c = d then stripLit cs ds else none

/-- Characters before the first double quote, `none` when the list has no
quote (regex `[^"]*` up to the closing quote of a quoted string). -/
def takeUntilQuote : List Char → Option (List Char)
  | [] => none
  | c :: r => if c = quoteChar then some [] else (takeUntilQuote r).map (c :: ·)

/-- The word occurs at the head of `s` and is followed by end-of-content or
whitespace (regex `word(\s+[^"]+)*\s*` against the remaining quoted
content). -/
def wordTokenAt (word s : List Char) : Bool :=
  match stripLit word s with
  | some [] => true
  | some (c :: _) => isSpaceJS c
  | none => false

/-- The quoted content contains the word delimited by whitespace or the
quotes: regex `\s*([^"]+\s+)*word(\s+[^"]+)*\s*` matches the content iff
the word occurs at a position preceded by nothing or whitespace and
followed by nothing or whitespace. `allowed` records whether a match may
start at the current position (start of content, or the previous character
was whitespace). -/
def contentHasWord (word : List Char) : List Char → Bool → Bool
  | [], allowed => allowed && wordTokenAt word []
  | c :: rest, allowed =>
      (allowed && wordTokenAt word (c :: rest)) || contentHasWord word rest (isSpaceJS c)

/-- Regex alternative `"\s*([^"]+\s+)*word(\s+[^"]+)*\s*"`: an opening
quote, then quote-free content containing the word as a whitespace
delimited token, then the next quote closes the match. -/
def quotedAlt (word : List Char) : List Char → Bool
  | [] => false
  | c :: rest =>
      c = quoteChar &&
        match takeUntilQuote rest with
        | some content => contentHasWord word content true
        | none => false

/-- Attempt of the hasPrefer regex at one position of the header:
`token\s*=\s*("..."|word$)`. The bare alternative is anchored at the end of
the header value, so after the whitespace the remainder must equal the word
exactly. -/
def preferAt (token word : List Char) (s : List Char) : Bool :=
  match stripLit token s with
  | none => false
  | some r1 =>
    match r1.dropWhile isSpaceJS with
    | [] => false
    | c :: r2 =>
        c = '=' &&
          (let r3 := r2.dropWhile isSpaceJS
           quotedAlt word r3 || r3 == word)

/-- Unanchored regex search: try `preferAt` at every suffix of the header. -/
def scanPrefer (token word : List Char) : List Char → Bool
  | [] => preferAt token word []
  | c :: rest => preferAt token word (c :: rest) || scanPrefer token word rest

/-- service.js hasPrefer(req, token, parameter): false for a null request or
missing Prefer header, else the regex
`token\s*=\s*("\s*([^"]+\s+)*word(\s+[^"]+)*\s*"|word$)` tested against the
header, where word is the parameter with '.' escaped — escaping followed by
regex matching is literal matching of the parameter. -/
def hasPrefer (req : Option Request) (token parameter : String) : Bool :=
  match req with
  | none => false
  | some r =>
    match r.prefer with
    | none => false
    | some preferHeader => scanPrefer token.data parameter.data preferHeader.data

/-- service.js hasPreferInclude. -/
def hasPreferInclude (req : Option Request) (inclusion : String) : Bool :=
  hasPrefer req "include" inclusion

/-- service.js hasPreferOmit. -/
def hasPreferOmit (req : Option Request) (omission : String) : Bool :=
  hasPrefer req "omit" omission

/-- The literal URI-reference part of the hasResourceLink regex. -/
def ldpResourceLinkLit : List Char := "<http://www.w3.org/ns/ldp#Resource>".data

/-- Bare alternative of the hasResourceLink regex, `\s*type[\s,;$]`: inside
a character class `$` is a literal dollar sign, so `type` must be followed
by one more character drawn from whitespace, comma, semicolon or dollar. -/
def bareTypeAlt (s : List Char) : Bool :=
  match stripLit "type".data (s.dropWhile isSpaceJS) with
  | some (c :: _) => isSpaceJS c || c = ',' || c = ';' || c = '$'
  | _ => false

/-- Attempt of the hasResourceLink regex at one position:
`<...ldp#Resource>\s*;\s*rel\s*=\s*(("\s*([^"]+\s+)*type(\s+[^"]+)*\s*")|\s*type[\s,;$])`. -/
def linkMatchAt (s : List Char) : Bool :=
  match stripLit ldpResourceLinkLit s with
  | none => false
  | some r1 =>
    match r1.dropWhile isSpaceJS with
    | [] => false
    | c :: r2 =>
        c = ';' &&
          match stripLit "rel".data (r2.dropWhile isSpaceJS) with
          | none => false
          | some r3 =>
            match r3.dropWhile isSpaceJS with
            | [] => false
            | d :: r4 =>
                d = '=' &&
                  (let r5 := r4.dropWhile isSpaceJS
                   quotedAlt "type".data r5 || bareTypeAlt r5)

/-- Unanchored search for `linkMatchAt` over every suffix. -/
def scanLink : List Char → Bool
  | [] => linkMatchAt []
  | c :: rest => linkMatchAt (c :: rest) || scanLink rest

/-- service.js hasResourceLink(req): the Link request header matches the
ldp:Resource rel=type pattern (false when the header is absent). -/
def hasResourceLink (link : Option String) : Bool :=
  match link with
  | none => false
  | some l => scanLink l.data

/-- service.js getETag(content): weak ETag from an MD5 hex digest of the
serialized content, the digest function being a parameter here. -/
def getETag (md5hex : String → String) (content : String) : String :=
  "W/\"" ++ md5hex content ++ "\""

/-- rdflib statementsMatching(sym(document.uri), RDF('type'), sym(rdfClass)). -/
def typeStatements (document : Document) (rdfClass : String) : List Triple :=
  document.triples.filter (fun t =>
    t.subject == document.uri && t.predicate == rdf.type && t.object == rdfClass)

/-- rdflib any(sym(document.uri), sym(p)): the object of the first matching
statement. -/
def anyObject (document : Document) (p : String) : Option String :=
  (document.triples.find? (fun t => t.subject == document.uri && t.predicate == p)).map
    (fun t => t.object)

/-- Direct-Container field extraction of updateInteractionModel (second
draft, service.js lines 1200-1207): each of membershipResource,
hasMemberRelation, isMemberOfRelation is assigned from the first matching
statement when one exists, else left as it was. The source assigns the
three fields one after another, but `any` reads only the statements and the
URI, which the assignments do not touch, so the three lookups are written
against the incoming document. -/
def extractMembershipFields (document : Document) : Document :=
  { document with
    membershipResource :=
      match anyObject document ldp.membershipResource with
      | some v => some v
      | none => document.membershipResource,
    hasMemberRelation :=
      match anyObject document ldp.hasMemberRelation with
      | some v => some v
      | none => document.hasMemberRelation,
    isMemberOfRelation :=
      match anyObject document ldp.isMemberOfRelation with
      | some v => some v
      | none => document.isMemberOfRelation }

/-- service.js updateInteractionModel (second draft): classify from the RDF
type triples on the document's own URI — DirectContainer checked after and
so taking precedence over BasicContainer, default RDFSource — extract the
Direct Container membership fields, and only assign `interactionModel` when
the document does not already carry one. -/
def updateInteractionModel (document : Document) : Document :=
  let im0 := ldp.RDFSource
  let im1 :=
    if (typeStatements document ldp.BasicContainer).length ≠ 0 then ldp.BasicContainer else im0
  let im2 :=
    if (typeStatements document ldp.DirectContainer).length ≠ 0 then ldp.DirectContainer else im1
  let document := if im2 == ldp.DirectContainer then extractMembershipFields document else document
  if document.interactionModel = none then { document with interactionModel := some im2 }
  else document

/-- service.js isMembershipPatternValid: a non Direct Container is always
valid; a Direct Container needs membershipResource and exactly one of
hasMemberRelation / isMemberOfRelation. -/
def isMembershipPatternValid (document : Document) : Bool :=
  if document.interactionModel ≠ some ldp.DirectContainer then true
  else if document.membershipResource = none then false
  else if document.hasMemberRelation.isSome then !document.isMemberOfRelation.isSome
  else if document.isMemberOfRelation.isSome then !document.hasMemberRelation.isSome
  else false

/-- service.js removeMembership: when the document is a membershipResource
for some containers, drop every triple whose subject is `document.name` and
whose predicate is one of those containers' hasMemberRelation values. A JS
quirk kept by the model: an empty membershipResourceFor array is truthy, so
the filter still runs (with no member relations). Note the function is
defined in both drafts but only the first draft's putUpdate ever calls it. -/
def removeMembership (document : Document) : Document :=
  match document.membershipResourceFor with
  | none => document
  | some patterns =>
    let memberRelations := patterns.filterMap (fun p => p.hasMemberRelation)
    { document with
      triples := document.triples.filter (fun triple =>
        some triple.subject ≠ document.name || !memberRelations.contains triple.predicate) }

/-- service.js insertMembership (second draft): when the document is a
membershipResource, an omit=PreferMembership preference short-circuits with
preferenceApplied; otherwise the members of each pattern's container are
pushed as (document.name, pattern.hasMemberRelation, member) triples —
the source reads both properties without checking, so absent ones are JS
undefined. With a zero-length pattern array the source never invokes its
continuation (the forEach counter never reaches the length), modelled as
`none`. The backend call is modelled as always succeeding. -/
def insertMembership (req : Option Request) (document : Document)
    (getMembershipTriples : String → List String) : Option (Document × Bool) :=
  match document.membershipResourceFor with
  | none => some (document, false)
  | some patterns =>
    if hasPreferOmit req ldp.PreferMembership then some (document, true)
    else if patterns.isEmpty then none
    else
      let preferenceApplied := hasPreferInclude req ldp.PreferMembership
      let newTriples := patterns.flatMap (fun pattern =>
        (getMembershipTriples pattern.container).map (fun resource =>
          { subject := document.name.getD jsUndefined,
            predicate := pattern.hasMemberRelation.getD jsUndefined,
            object := resource }))
      some ({ document with triples := document.triples ++ newTriples }, preferenceApplied)

/-- service.js insertCalculatedTriples (second draft): run insertMembership,
stop if interactionModel is null, else decide containment and membership
inclusion from the Prefer header (include wins over omit, the default is
the negation of the minimal-container preference, membership only for a
Direct Container declaring hasMemberRelation) and append the calculated
triples for each member the backend returns, in source order (containment
then membership per member). -/
def insertCalculatedTriples (req : Option Request) (document : Document)
    (getMembershipTriples : String → List String) : Option (Document × Bool) :=
  (insertMembership req document getMembershipTriples).bind (fun res =>
    let document := res.1
    let preferenceApplied := res.2
    if document.interactionModel = none then some (document, preferenceApplied)
    else
      let minimal := hasPreferInclude req ldp.PreferMinimalContainer ||
        hasPreferInclude req ldp.PreferEmptyContainer
      let preferenceApplied := preferenceApplied || minimal
      let containmentChoice :=
        if hasPreferInclude req ldp.PreferContainment then (true, true)
        else if hasPreferOmit req ldp.PreferContainment then (false, true)
        else (!minimal, preferenceApplied)
      let includeContainment := containmentChoice.1
      let preferenceApplied := containmentChoice.2
      let membershipChoice :=
        if document.interactionModel == some ldp.DirectContainer &&
            document.hasMemberRelation.isSome then
          if hasPreferInclude req ldp.PreferMembership then (true, true)
          else if hasPreferOmit req ldp.PreferMembership then (false, true)
          else (!minimal, preferenceApplied)
        else (false, preferenceApplied)
      let includeMembership := membershipChoice.1
      let preferenceApplied := membershipChoice.2
      if !includeContainment && !includeMembership then some (document, preferenceApplied)
      else
        let members := getMembershipTriples document.uri
        let newTriples := members.flatMap (fun member =>
          (if includeContainment then
            [{ subject := document.uri, predicate := ldp.contains, object := member : Triple }]
           else []) ++
          (if includeMembership then
            [{ subject := document.membershipResource.getD jsUndefined,
               predicate := document.hasMemberRelation.getD jsUndefined,
               object := member : Triple }]
           else []))
        some ({ document with triples := document.triples ++ newTriples }, preferenceApplied))

/-- Response headers set by addHeaders. -/
structure ResponseHeaders where
  allow : String
  acceptPost : Option String
  linkType : Option String
deriving DecidableEq, Repr

/-- service.js addHeaders: base Allow is GET,HEAD,DELETE,OPTIONS; a document
with an interactionModel set additionally gets POST in Allow, an
Accept-Post header with the four media types, and a Link typing it with its
interaction model; a document without one gets PUT instead. -/
def addHeaders (document : Document) : ResponseHeaders :=
  let allow := "GET,HEAD,DELETE,OPTIONS"
  if document.interactionModel.isSome then
    { allow := allow ++ ",POST",
      acceptPost :=
        some (media.turtle ++ "," ++ media.jsonld ++ "," ++ media.json ++ "," ++ media.rdfxml),
      linkType := document.interactionModel }
  else
    { allow := allow ++ ",PUT", acceptPost := none, linkType := none }

/-- Outcome of a PUT handler: response status, explicit Allow header when
one is set, and the document handed to db.update when it is called. -/
structure WriteResult where
  status : Nat
  allow : Option String := none
  updated : Option Document := none
deriving DecidableEq, Repr

/-- service.js putUpdate (second draft): containers are rejected 405 with an
explicit Allow; a missing If-Match is 428; the stored document as read is
serialized (Turtle when the request Content-Type is Turtle, JSON-LD
otherwise) — with no calculated-triple insertion — and its weak ETag
compared against If-Match, mismatch 412; otherwise the new triples pass
through updateInteractionModel and go to db.update, whose status is sent as
the response. -/
def putUpdate (req : Request) (serializeDoc : String → Document → String)
    (md5hex : String → String) (updateStatus : Nat)
    (document newTriples : Document) : WriteResult :=
  if document.interactionModel == some ldp.BasicContainer ||
      document.interactionModel == some ldp.DirectContainer then
    { status := 405, allow := some "GET,HEAD,DELETE,OPTIONS,POST" }
  else
    match req.ifMatch with
    | none => { status := 428 }
    | some ifMatch =>
      let serialize := if reqIs req media.turtle then media.turtle else media.jsonld
      let content := serializeDoc serialize document
      let eTag := getETag md5hex content
      if ifMatch ≠ eTag then { status := 412 }
      else
        let newTriples := updateInteractionModel newTriples
        { status := updateStatus, updated := some newTriples }

/-- service.js putCreate (second draft): set the document URI, classify with
updateInteractionModel, override to RDFSource on a matching Link header,
reject an invalid Direct Container pattern with 409 before any backend
write, else hand the document to db.update and send its status. -/
def putCreate (req : Request) (updateStatus : Nat) (document : Document) : WriteResult :=
  let document := { document with uri := req.fullURL }
  let document := updateInteractionModel document
  let document :=
    if hasResourceLink req.link then { document with interactionModel := some ldp.RDFSource }
    else document
  if !isMembershipPatternValid document then { status := 409 }
  else { status := updateStatus, updated := some document }

/-- ASCII word character, JS regex `\w` = [A-Za-z0-9_]. -/
def isWordChar (c : Char) : Bool :=
  (65 ≤ c.toNat && c.toNat ≤ 90) || (97 ≤ c.toNat && c.toNat ≤ 122) ||
  (48 ≤ c.toNat && c.toNat ≤ 57) || c = '_'

/-- Characters before the first occurrence of `sep` (JS
`string.split(sep)[0]`). -/
def takeBeforeChar (sep : Char) : List Char → List Char
  | [] => []
  | c :: rest => if c = sep then [] else c :: takeBeforeChar sep rest

/-- Uppercase hexadecimal digit. -/
def hexDigitUpper (n : Nat) : Char :=
  if n < 10 then Char.ofNat (48 + n) else Char.ofNat (55 + n)

/-- UTF-8 bytes of a code point. -/
def utf8Bytes (n : Nat) : List Nat :=
  if n < 0x80 then [n]
  else if n < 0x800 then [0xC0 + n / 64, 0x80 + n % 64]
  else if n < 0x10000 then [0xE0 + n / 4096, 0x80 + (n / 64) % 64, 0x80 + n % 64]
  else [0xF0 + n / 262144, 0x80 + (n / 4096) % 64, 0x80 + (n / 64) % 64, 0x80 + n % 64]

/-- Characters encodeURIComponent leaves unescaped: alphanumerics and
`- _ . ! ~ * ' ( )` (the apostrophe written via its code point). -/
def isUnreservedURIChar (c : Char) : Bool :=
  (65 ≤ c.toNat && c.toNat ≤ 90) || (97 ≤ c.toNat && c.toNat ≤ 122) ||
  (48 ≤ c.toNat && c.toNat ≤ 57) ||
  c = '-' || c = '_' || c = '.' || c = '!' || c = '~' || c = '*' || c.toNat = 39 ||
  c = '(' || c = ')'

/-- JavaScript encodeURIComponent: unreserved characters kept, every other
character percent-encoded byte by byte in UTF-8 with uppercase hex. -/
def encodeURIComponent (s : String) : String :=
  String.mk (s.data.flatMap (fun c =>
    if isUnreservedURIChar c then [c]
    else (utf8Bytes c.toNat).flatMap (fun b => ['%', hexDigitUpper (b / 16), hexDigitUpper (b % 16)])))

/-- service.js addPath(uri, path): strip the query then the hash from the
URI, ensure a trailing slash, reduce the path to characters matching
`[\w\s\-_]` and append its percent-encoding. -/
def addPath (uri path : String) : String :=
  let uriChars := takeBeforeChar '#' (takeBeforeChar '?' uri.data)
  let uriChars := if uriChars.getLast? = some '/' then uriChars else uriChars ++ ['/']
  let lastSegment := String.mk (path.data.filter (fun c => isWordChar c || isSpaceJS c || c = '-'))
  String.mk uriChars ++ encodeURIComponent lastSegment

/-- Outcome of URI allocation: the status the callback receives, the
candidate URI it receives, and (ghost instrumentation) the list of URIs on
which db.reserveURI was invoked, in order. -/
structure AssignResult where
  status : Nat
  uri : String
  attempts : List String
deriving DecidableEq, Repr

/-- service.js uniqueURI: a single reservation attempt on
`addPath container ("res" ++ Date.now())`, propagating the backend status —
there is no retry loop. -/
def uniqueURI (container : String) (now : Nat) (reserve : String → Nat) : AssignResult :=
  let candidate := addPath container ("res" ++ toString now)
  { status := reserve candidate, uri := candidate, attempts := [candidate] }

/-- service.js assignURI (second draft): with a truthy Slug, try the slug
candidate and fall back to uniqueURI only when its reservation status is
not 201; with an absent or empty Slug go straight to uniqueURI. -/
def assignURI (container : String) (slug : Option String) (now : Nat)
    (reserve : String → Nat) : AssignResult :=
  match slug with
  | some s =>
    if s = "" then uniqueURI container now reserve
    else
      let candidate := addPath container s
      if reserve candidate ≠ 201 then
        let fallback := uniqueURI container now reserve
        { fallback with attempts := candidate :: fallback.attempts }
      else { status := 201, uri := candidate, attempts := [candidate] }
  | none => uniqueURI container now reserve

/-- Outcome of the POST handler: status, Allow header when set, Location,
whether db.releaseURI was invoked on the allocated URI, the document handed
to db.update, and the db.insertData calls made (triple and target URI). -/
structure PostResult where
  status : Nat
  allow : Option String := none
  location : Option String := none
  released : Bool := false
  updated : Option Document := none
  inserted : List (Triple × String) := []
deriving DecidableEq, Repr

/-- service.js resource.post (second draft): db.read must report 200 and the
target must carry an interactionModel (else 405 with Allow for non
containers); the Content-Type must be one of Turtle/JSON-LD/JSON (else
415); assignURI must report 201 (else 500, nothing reserved so nothing
released); a body parse failure releases the URI and sends 400; the parsed
member is classified, Link-overridden, and an invalid Direct Container
pattern releases the URI and sends 409; membership side effects are an
isMemberOfRelation triple added to the member itself, or an insertData of
the hasMemberRelation triple into the membership resource, or an insertData
of the containment triple into a non-Direct container (their statuses are
ignored by the source); finally db.update is made — any status other than
201 releases the URI and sends 500, else 201 with Location. The parse
result is a parameter: `none` is a parse error, `some entity` the parsed
graph. addHeaders is also invoked on the new member; its effect on response
headers is not recorded here. -/
def post (req : Request) (readStatus : Nat) (container : Document)
    (reserve : String → Nat) (now : Nat) (parsed : Option Document)
    (updateStatus : Nat) : PostResult :=
  if readStatus ≠ 200 then { status := readStatus }
  else if container.interactionModel = none then
    { status := 405, allow := some "GET,HEAD,PUT,DELETE,OPTIONS" }
  else if !(reqIs req media.turtle || reqIs req media.jsonld || reqIs req media.json) then
    { status := 415 }
  else
    let assigned := assignURI req.fullURL req.slug now reserve
    if assigned.status ≠ 201 then { status := 500 }
    else
      let loc := assigned.uri
      match parsed with
      | none => { status := 400, released := true }
      | some entity =>
        let newMember := updateInteractionModel { entity with uri := loc }
        let newMember :=
          if hasResourceLink req.link then
            { newMember with interactionModel := some ldp.RDFSource }
          else newMember
        if !isMembershipPatternValid newMember then { status := 409, released := true }
        else
          let effect :=
            if container.interactionModel == some ldp.DirectContainer then
              match container.isMemberOfRelation with
              | some r =>
                ({ newMember with triples := newMember.triples ++
                    [{ subject := loc, predicate := r,
                       object := container.membershipResource.getD jsUndefined }] },
                 ([] : List (Triple × String)))
              | none =>
                (newMember,
                 [({ subject := container.membershipResource.getD jsUndefined,
                     predicate := container.hasMemberRelation.getD jsUndefined,
                     object := loc }, container.membershipResource.getD jsUndefined)])
            else
              (newMember,
               [({ subject := req.fullURL, predicate := ldp.contains, object := loc },
                 req.fullURL)])
          let newMember := effect.1
          let inserted := effect.2
          if updateStatus ≠ 201 then { status := 500, released := true, inserted := inserted }
          else { status := 201, location := some loc, updated := some newMember,
                 inserted := inserted }

/-- Lists of `n` spaces, for stating whitespace-tolerance properties. -/
def spacesL (n : Nat) : List Char := List.replicate n ' '

/-- Split a character list at a separator character (for inspecting
comma-separated header values in theorem statements). -/
def splitOnChar (sep : Char) : List Char → List (List Char)
  | [] => [[]]
  | c :: rest =>
    let r := splitOnChar sep rest
    if c = sep then [] :: r
    else
      match r with
      | h :: t => (c :: h) :: t
      | [] => [[c]]

/-- Tokens of an Allow header value. -/
def allowTokens (h : ResponseHeaders) : List String :=
  (splitOnChar ',' h.allow.data).map String.mk

/-- Concrete serializer instrument for counterexamples: the serialized
content is one character per triple, so any change to the number of triples
changes the serialization and hence the ETag. -/
def serializeByCount : String → Document → String :=
  fun _ document => String.mk (List.replicate document.triples.length 'x')

/-- Concrete digest instrument for counterexamples: the identity function
(getETag only needs injectivity on the contents at hand). -/
def md5Identity : String → String := fun content => content

/-! Helper lemmas shared by the claim theorems. -/

theorem stripLit_self_append (p r : List Char) : stripLit p (p ++ r) = some r := by
  induction p with
  | nil => rfl
  | cons c cs ih => simp [stripLit, ih]

theorem dropWhile_spacesL (n : Nat) (l : List Char) :
    (spacesL n ++ l).dropWhile isSpaceJS = l.dropWhile isSpaceJS := by
  induction n with
  | zero => rfl
  | succ k ih =>
    have h1 : spacesL (k + 1) ++ l = ' ' :: (spacesL k ++ l) := by
      simp [spacesL, List.replicate_succ]
    rw [h1, List.dropWhile_cons]
    simpa [show isSpaceJS ' ' = true from by decide] using ih

theorem typeStatements_length_ne_zero_iff (document : Document) (rdfClass : String) :
    ((typeStatements document rdfClass).length ≠ 0) ↔
      (⟨document.uri, rdf.type, rdfClass⟩ : Triple) ∈ document.triples := by
  unfold typeStatements
  rw [Ne, List.length_eq_zero, List.filter_eq_nil_iff]
  push_neg
  constructor
  · rintro ⟨t, ht, hpred⟩
    simp only [Bool.and_eq_true, beq_iff_eq] at hpred
    obtain ⟨⟨h1, h2⟩, h3⟩ := hpred
    cases t
    simp_all
  · intro h
    exact ⟨_, h, by simp⟩

theorem extractMembershipFields_proj (document : Document) :
    (extractMembershipFields document).interactionModel = document.interactionModel ∧
    (extractMembershipFields document).uri = document.uri ∧
    (extractMembershipFields document).triples = document.triples ∧
    (extractMembershipFields document).membershipResourceFor = document.membershipResourceFor := by
  unfold extractMembershipFields
  exact ⟨rfl, rfl, rfl, rfl⟩

/-- C9: the interaction-model Analyzer classifies a graph as DirectContainer
when it holds (uri, rdf:type, ldp:DirectContainer) — DirectContainer taking
precedence over BasicContainer — else BasicContainer when it holds the
BasicContainer type triple, else RDFSource; and a document whose
interactionModel is already set keeps it unchanged. -/
theorem c9_interaction_model_classification (document : Document) :
    (updateInteractionModel document).interactionModel =
      some (match document.interactionModel with
            | some m => m
            | none =>
              if (⟨document.uri, rdf.type, ldp.DirectContainer⟩ : Triple) ∈ document.triples then
                ldp.DirectContainer
              else if (⟨document.uri, rdf.type, ldp.BasicContainer⟩ : Triple) ∈ document.triples then
                ldp.BasicContainer
              else ldp.RDFSource) := by
  have hext := (extractMembershipFields_proj document).1
  simp only [← typeStatements_length_ne_zero_iff]
  unfold updateInteractionModel
  by_cases hdc : (typeStatements document ldp.DirectContainer).length ≠ 0 <;>
    by_cases hbc : (typeStatements document ldp.BasicContainer).length ≠ 0 <;>
      cases him : document.interactionModel <;>
        simp_all [show (ldp.BasicContainer == ldp.DirectContainer) = false from by decide,
          show (ldp.RDFSource == ldp.DirectContainer) = false from by decide]

/-- C10: addHeaders always allows GET, HEAD, DELETE and OPTIONS; it allows
POST — together with an Accept-Post header listing the RDF media types and
a Link typing the document with its interaction-model IRI — exactly when
the document's interactionModel field is set, and allows PUT exactly when
it is not, never both. -/
theorem c10_allow_headers (document : Document) :
    ("GET" ∈ allowTokens (addHeaders document) ∧ "HEAD" ∈ allowTokens (addHeaders document) ∧
      "DELETE" ∈ allowTokens (addHeaders document) ∧
      "OPTIONS" ∈ allowTokens (addHeaders document)) ∧
    (("POST" ∈ allowTokens (addHeaders document)) ↔ document.interactionModel.isSome = true) ∧
    (("PUT" ∈ allowTokens (addHeaders document)) ↔ document.interactionModel.isSome = false) ∧
    (¬("PUT" ∈ allowTokens (addHeaders document) ∧ "POST" ∈ allowTokens (addHeaders document))) ∧
    ((addHeaders document).acceptPost =
      if document.interactionModel.isSome then
        some "text/turtle,application/ld+json,application/json,application/rdf+xml"
      else none) ∧
    ((addHeaders document).linkType = document.interactionModel) := by
  cases him : document.interactionModel <;>
    simp [addHeaders, him, allowTokens] <;> decide

/-- C5: a PUT whose target already holds a container (BasicContainer or
DirectContainer interaction model) is answered 405 with
Allow: GET,HEAD,DELETE,OPTIONS,POST and db.update is never called. -/
theorem c5_put_on_container_405 (req : Request) (serializeDoc : String → Document → String)
    (md5hex : String → String) (updateStatus : Nat) (document newTriples : Document)
    (h : document.interactionModel = some ldp.BasicContainer ∨
      document.interactionModel = some ldp.DirectContainer) :
    putUpdate req serializeDoc md5hex updateStatus document newTriples =
      { status := 405, allow := some "GET,HEAD,DELETE,OPTIONS,POST", updated := none } := by
  rcases h with h | h <;> simp [putUpdate, h]

/-- C5 witness: concrete PUT on a BasicContainer. -/
theorem c5_put_on_container_405_witness :
    putUpdate {} serializeByCount md5Identity 204
        { interactionModel := some ldp.BasicContainer } {} =
      { status := 405, allow := some "GET,HEAD,DELETE,OPTIONS,POST", updated := none } :=
  c5_put_on_container_405 {} serializeByCount md5Identity 204
    { interactionModel := some ldp.BasicContainer } {} (Or.inl rfl)

/-- C1 (code-bug evaluation): a PUT-update whose body carries a containment
triple (u, ldp:contains, x) and a membership triple (u, hasMemberRelation
of a container for which u is the membershipResource) hands both triples
unchanged to db.update — the second draft's write paths never call
removeMembership and no code strips ldp:contains — while removeMembership,
had it been called as in the first draft's update path, would have stripped
the membership triple but still kept the containment triple. -/
theorem c1_put_persists_derived_triples :
    putUpdate
        { contentType := some media.turtle, ifMatch := some "W/\"\"" }
        serializeByCount md5Identity 204
        { uri := "http://h/r/mr", name := some "http://h/r/mr",
          interactionModel := some ldp.RDFSource,
          membershipResourceFor := some
            [{ container := "http://h/r/c2", hasMemberRelation := some "http://ex/has" }] }
        { uri := "http://h/r/mr",
          triples := [
            { subject := "http://h/r/mr", predicate := ldp.contains, object := "http://h/r/mr/x" },
            { subject := "http://h/r/mr", predicate := "http://ex/has",
              object := "http://h/r/m1" }] } =
      { status := 204, allow := none,
        updated := some
          { uri := "http://h/r/mr",
            triples := [
              { subject := "http://h/r/mr", predicate := ldp.contains,
                object := "http://h/r/mr/x" },
              { subject := "http://h/r/mr", predicate := "http://ex/has",
                object := "http://h/r/m1" }],
            interactionModel := some ldp.RDFSource } } ∧
    removeMembership
        { uri := "http://h/r/mr", name := some "http://h/r/mr",
          interactionModel := some ldp.RDFSource,
          membershipResourceFor := some
            [{ container := "http://h/r/c2", hasMemberRelation := some "http://ex/has" }],
          triples := [
            { subject := "http://h/r/mr", predicate := ldp.contains, object := "http://h/r/mr/x" },
            { subject := "http://h/r/mr", predicate := "http://ex/has",
              object := "http://h/r/m1" }] } =
      { uri := "http://h/r/mr", name := some "http://h/r/mr",
        interactionModel := some ldp.RDFSource,
        membershipResourceFor := some
          [{ container := "http://h/r/c2", hasMemberRelation := some "http://ex/has" }],
        triples := [
          { subject := "http://h/r/mr", predicate := ldp.contains,
            object := "http://h/r/mr/x" }] } := by
  decide

/-- C8 counterexample: a Slug of "???" sanitizes to the empty segment, yet
allocation does not fall back to the res-millis scheme — the candidate is
the container URI with a bare trailing slash, and it is accepted when the
backend reserves it. -/
theorem c8_empty_slug_counterexample :
    "???".data.filter (fun c => isWordChar c || isSpaceJS c || c = '-') = [] ∧
    assignURI "http://h/r/c1" (some "???") 7 (fun _ => 201) =
      { status := 201, uri := "http://h/r/c1/", attempts := ["http://h/r/c1/"] } ∧
    addPath "http://h/r/c1" ("res" ++ toString 7) = "http://h/r/c1/res7" ∧
    ("http://h/r/c1/" : String) ≠ "http://h/r/c1/res7" := by
  decide

/-- C8 (amended): with a non-empty Slug the candidate is
`addPath container slug` and is used when its reservation succeeds; when
the reservation fails, or the Slug header is absent or empty, a single
fallback attempt is made on `addPath container ("res" ++ now)` and its
status — success or collision — is propagated without any retry; in every
case at most two reservation attempts are made. -/
theorem c8_uri_allocation (container s : String) (slug : Option String) (now : Nat)
    (reserve : String → Nat) :
    (s ≠ "" → reserve (addPath container s) = 201 →
      assignURI container (some s) now reserve =
        { status := 201, uri := addPath container s, attempts := [addPath container s] }) ∧
    (s ≠ "" → reserve (addPath container s) ≠ 201 →
      assignURI container (some s) now reserve =
        { status := reserve (addPath container ("res" ++ toString now)),
          uri := addPath container ("res" ++ toString now),
          attempts := [addPath container s, addPath container ("res" ++ toString now)] }) ∧
    (assignURI container none now reserve =
      { status := reserve (addPath container ("res" ++ toString now)),
        uri := addPath container ("res" ++ toString now),
        attempts := [addPath container ("res" ++ toString now)] }) ∧
    (assignURI container slug now reserve).attempts.length ≤ 2 := by
  refine ⟨?_, ?_, ?_, ?_⟩
  · intro hs hr
    simp [assignURI, hs, hr]
  · intro hs hr
    simp [assignURI, uniqueURI, hs, hr]
  · simp [assignURI, uniqueURI]
  · cases slug with
    | none => simp [assignURI, uniqueURI]
    | some t =>
      by_cases ht : t = ""
      · simp [assignURI, uniqueURI, ht]
      · by_cases hr : reserve (addPath container t) ≠ 201 <;>
          simp [assignURI, uniqueURI, ht, hr]

/-- C8 witness: a clean slug is reserved on the first attempt. -/
theorem c8_uri_allocation_witness :
    assignURI "http://h/r/c1" (some "a") 7 (fun _ => 201) =
      { status := 201, uri := addPath "http://h/r/c1" "a",
        attempts := [addPath "http://h/r/c1" "a"] } :=
  (c8_uri_allocation "http://h/r/c1" "a" none 7 (fun _ => 201)).1 (by decide) rfl

/-- C2 counterexample: the second draft's putUpdate compares If-Match
against the ETag of the stored representation WITHOUT calculated-triple
insertion. For a stored resource whose calculated-triple insertion adds a
containment triple, the after-insertion ETag is W/"x" while the stored
ETag is W/""; a request whose If-Match is W/"" differs from the
after-insertion ETag, yet the response is the update status 204 and
db.update is called — not the 412-and-unchanged the claim requires. -/
theorem c2_etag_without_insertion_counterexample :
    (insertCalculatedTriples none
        { uri := "http://h/r/x", interactionModel := some ldp.RDFSource }
        (fun _ => ["http://h/r/m"])).map
        (fun p => getETag md5Identity (serializeByCount media.turtle p.1)) = some "W/\"x\"" ∧
    ("W/\"\"" : String) ≠ "W/\"x\"" ∧
    putUpdate { contentType := some media.turtle, ifMatch := some "W/\"\"" }
        serializeByCount md5Identity 204
        { uri := "http://h/r/x", interactionModel := some ldp.RDFSource }
        { uri := "http://h/r/x",
          triples :=
            [{ subject := "http://h/r/x", predicate := "http://purl.org/dc/terms/title",
               object := "t" }] } =
      { status := 204, allow := none,
        updated := some
          { uri := "http://h/r/x",
            triples :=
              [{ subject := "http://h/r/x", predicate := "http://purl.org/dc/terms/title",
                 object := "t" }],
            interactionModel := some ldp.RDFSource } } := by
  decide

/-- C2 (amended): for a PUT to an existing non-container resource, a
missing If-Match yields 428 with no update, and an If-Match differing from
the weak ETag of the stored representation as read — serialized as Turtle
when the request Content-Type is Turtle and as JSON-LD otherwise, with no
calculated-triple insertion — yields 412 with no update. -/
theorem c2_put_update_preconditions (req : Request)
    (serializeDoc : String → Document → String) (md5hex : String → String)
    (updateStatus : Nat) (document newTriples : Document)
    (hbc : document.interactionModel ≠ some ldp.BasicContainer)
    (hdc : document.interactionModel ≠ some ldp.DirectContainer) :
    (req.ifMatch = none →
      putUpdate req serializeDoc md5hex updateStatus document newTriples =
        { status := 428, allow := none, updated := none }) ∧
    (∀ v, req.ifMatch = some v →
      v ≠ getETag md5hex (serializeDoc
            (if reqIs req media.turtle then media.turtle else media.jsonld) document) →
      putUpdate req serializeDoc md5hex updateStatus document newTriples =
        { status := 412, allow := none, updated := none }) := by
  have h1 : (document.interactionModel == some ldp.BasicContainer) = false := by
    simpa using hbc
  have h2 : (document.interactionModel == some ldp.DirectContainer) = false := by
    simpa using hdc
  constructor
  · intro hm
    simp [putUpdate, h1, h2, hm]
  · intro v hm hne
    simp [putUpdate, h1, h2, hm, hne]

/-- C2 witness: a PUT-update without If-Match is 428. -/
theorem c2_put_update_preconditions_witness :
    putUpdate { ifMatch := none } serializeByCount md5Identity 204 {} {} =
      { status := 428, allow := none, updated := none } :=
  (c2_put_update_preconditions { ifMatch := none } serializeByCount md5Identity 204 {} {}
    (by decide) (by decide)).1 rfl

/-- C7: a POST that has passed the gates (target read 200 with an
interaction model, supported Content-Type, URI reserved with 201) releases
the reserved URI before responding on each later failure: body parse
failure responds 400, an invalid Direct-Container membership pattern
responds 409, and a db.update failure responds 500 — in every case with
released = true. -/
theorem c7_post_failure_releases_uri (req : Request) (container : Document)
    (reserve : String → Nat) (now : Nat) (parsed : Option Document) (upd : Nat)
    (hcim : container.interactionModel.isSome = true)
    (hct : (reqIs req media.turtle || reqIs req media.jsonld || reqIs req media.json) = true)
    (hres : (assignURI req.fullURL req.slug now reserve).status = 201) :
    (parsed = none →
      post req 200 container reserve now parsed upd =
        { status := 400, allow := none, location := none, released := true,
          updated := none, inserted := [] }) ∧
    (∀ entity, parsed = some entity →
      isMembershipPatternValid
          (if hasResourceLink req.link then
            { updateInteractionModel
                { entity with uri := (assignURI req.fullURL req.slug now reserve).uri } with
              interactionModel := some ldp.RDFSource }
          else
            updateInteractionModel
              { entity with uri := (assignURI req.fullURL req.slug now reserve).uri }) = false →
      post req 200 container reserve now parsed upd =
        { status := 409, allow := none, location := none, released := true,
          updated := none, inserted := [] }) ∧
    (∀ entity, parsed = some entity →
      isMembershipPatternValid
          (if hasResourceLink req.link then
            { updateInteractionModel
                { entity with uri := (assignURI req.fullURL req.slug now reserve).uri } with
              interactionModel := some ldp.RDFSource }
          else
            updateInteractionModel
              { entity with uri := (assignURI req.fullURL req.slug now reserve).uri }) = true →
      upd ≠ 201 →
      (post req 200 container reserve now parsed upd).status = 500 ∧
      (post req 200 container reserve now parsed upd).released = true) := by
  have hc : container.interactionModel ≠ none := by
    cases h : container.interactionModel <;> simp_all
  refine ⟨?_, ?_, ?_⟩
  · intro hp
    simp [post, hc, hct, hres, hp]
  · intro entity hp hval
    simp [post, hc, hct, hres, hp, hval]
  · intro entity hp hval hupd
    cases hdir : (container.interactionModel == some ldp.DirectContainer) <;>
      cases himo : container.isMemberOfRelation <;>
        simp [post, hc, hct, hres, hp, hval, hupd, hdir, himo]

theorem isMembershipPatternValid_of_dc (d : Document)
    (hdc : d.interactionModel = some ldp.DirectContainer) :
    isMembershipPatternValid d =
      (d.membershipResource.isSome && (d.hasMemberRelation.isSome != d.isMemberOfRelation.isSome)) := by
  unfold isMembershipPatternValid
  rw [hdc]
  cases d.membershipResource <;> cases hm : d.hasMemberRelation <;>
    cases hi : d.isMemberOfRelation <;> simp_all

theorem membershipPatternInvalid_iff (d : Document)
    (hdc : d.interactionModel = some ldp.DirectContainer) :
    (isMembershipPatternValid d = false) ↔
      ¬(d.membershipResource.isSome = true ∧
        d.hasMemberRelation.isSome ≠ d.isMemberOfRelation.isSome) := by
  rw [isMembershipPatternValid_of_dc d hdc]
  cases d.membershipResource <;> cases d.hasMemberRelation <;>
    cases d.isMemberOfRelation <;> simp

/-- C3: a PUT-create or POST whose parsed body classifies as a Direct
Container (no Link override) is rejected with 409 — nothing persisted, the
POST reservation released, no insertData made — exactly when the classified
document lacks a membershipResource or does not set exactly one of
hasMemberRelation / isMemberOfRelation; a Direct Container with
membershipResource and exactly one relation is accepted (handed to
db.update). -/
theorem c3_direct_container_validation
    (req1 : Request) (upd1 : Nat) (document : Document)
    (req2 : Request) (container : Document) (reserve : String → Nat) (now : Nat)
    (entity : Document) (upd2 : Nat)
    (hl1 : hasResourceLink req1.link = false)
    (hl2 : hasResourceLink req2.link = false)
    (hdc1 : (updateInteractionModel { document with uri := req1.fullURL }).interactionModel =
      some ldp.DirectContainer)
    (hcim : container.interactionModel.isSome = true)
    (hct : (reqIs req2 media.turtle || reqIs req2 media.jsonld || reqIs req2 media.json) = true)
    (hres : (assignURI req2.fullURL req2.slug now reserve).status = 201)
    (hdc2 : (updateInteractionModel
        { entity with
          uri := (assignURI req2.fullURL req2.slug now reserve).uri }).interactionModel =
      some ldp.DirectContainer) :
    (((putCreate req1 upd1 document).status = 409 ∧ (putCreate req1 upd1 document).updated = none) ↔
      ¬((updateInteractionModel
          { document with uri := req1.fullURL }).membershipResource.isSome = true ∧
        (updateInteractionModel { document with uri := req1.fullURL }).hasMemberRelation.isSome ≠
          (updateInteractionModel
            { document with uri := req1.fullURL }).isMemberOfRelation.isSome)) ∧
    (((post req2 200 container reserve now (some entity) upd2).status = 409 ∧
      (post req2 200 container reserve now (some entity) upd2).released = true ∧
      (post req2 200 container reserve now (some entity) upd2).updated = none ∧
      (post req2 200 container reserve now (some entity) upd2).inserted = []) ↔
      ¬((updateInteractionModel
          { entity with
            uri := (assignURI req2.fullURL req2.slug now reserve).uri }).membershipResource.isSome =
            true ∧
        (updateInteractionModel
          { entity with
            uri := (assignURI req2.fullURL req2.slug now reserve).uri }).hasMemberRelation.isSome ≠
          (updateInteractionModel
            { entity with
              uri :=
                (assignURI req2.fullURL req2.slug now reserve).uri }).isMemberOfRelation.isSome)) := by
  have hc : container.interactionModel ≠ none := by
    cases h : container.interactionModel <;> simp_all
  constructor
  · cases hv : isMembershipPatternValid
        (updateInteractionModel { document with uri := req1.fullURL }) with
    | false =>
      have hrhs := (membershipPatternInvalid_iff _ hdc1).mp hv
      simp [putCreate, hl1, hv, hrhs]
    | true =>
      have hiff := membershipPatternInvalid_iff _ hdc1
      rw [hv] at hiff
      simp only [Bool.true_eq_false, false_iff, not_not] at hiff
      simp [putCreate, hl1, hv, hiff]
  · cases hv : isMembershipPatternValid
        (updateInteractionModel
          { entity with uri := (assignURI req2.fullURL req2.slug now reserve).uri }) with
    | false =>
      have hrhs := (membershipPatternInvalid_iff _ hdc2).mp hv
      simp [post, hc, hct, hres, hl2, hv, hrhs]
    | true =>
      have hiff := membershipPatternInvalid_iff _ hdc2
      rw [hv] at hiff
      simp only [Bool.true_eq_false, false_iff, not_not] at hiff
      cases hdir : (container.interactionModel == some ldp.DirectContainer) <;>
        cases himo : container.isMemberOfRelation <;>
          by_cases hupd : upd2 = 201 <;>
            simp [post, hc, hct, hres, hl2, hv, hiff, hdir, himo, hupd]

/-- C3 witness: a PUT-create of a Direct Container without membershipResource
is rejected 409 with nothing persisted. -/
theorem c3_direct_container_validation_witness :
    (putCreate { fullURL := "http://h/r/c3" } 201
        { triples :=
            [{ subject := "http://h/r/c3", predicate := rdf.type,
               object := ldp.DirectContainer }] }).status = 409 ∧
    (putCreate { fullURL := "http://h/r/c3" } 201
        { triples :=
            [{ subject := "http://h/r/c3", predicate := rdf.type,
               object := ldp.DirectContainer }] }).updated = none :=
  (c3_direct_container_validation
      { fullURL := "http://h/r/c3" } 201
      { triples :=
          [{ subject := "http://h/r/c3", predicate := rdf.type,
             object := ldp.DirectContainer }] }
      { fullURL := "http://h/r/c1", contentType := some media.turtle, slug := some "a" }
      { uri := "http://h/r/c1", interactionModel := some ldp.BasicContainer }
      (fun _ => 201) 3
      { triples :=
          [{ subject := "http://h/r/c1/a", predicate := rdf.type,
             object := ldp.DirectContainer }] }
      201
      (by decide) (by decide) (by decide) (by decide) (by decide) (by decide)
      (by decide)).1.mpr (by decide)

theorem scanLink_of_head (l : List Char) (h : linkMatchAt l = true) : scanLink l = true := by
  cases l with
  | nil => simpa [scanLink] using h
  | cons c rest => simp [scanLink, h]

theorem linkMatchAt_ws (n1 n2 n3 n4 : Nat) (q : List Char)
    (hq : (quotedAlt "type".data (q.dropWhile isSpaceJS) ||
      bareTypeAlt (q.dropWhile isSpaceJS)) = true) :
    linkMatchAt (ldpResourceLinkLit ++ spacesL n1 ++ [';'] ++ spacesL n2 ++
      "rel".data ++ spacesL n3 ++ ['='] ++ spacesL n4 ++ q) = true := by
  have hrel : ("rel".data : List Char) = ['r', 'e', 'l'] := rfl
  have htype : ("type".data : List Char) = ['t', 'y', 'p', 'e'] := rfl
  have h1 : isSpaceJS ';' = false := by decide
  have h2 : isSpaceJS 'r' = false := by decide
  have h3 : isSpaceJS '=' = false := by decide
  have hstrip : ∀ X : List Char, stripLit ['r', 'e', 'l'] ('r' :: 'e' :: 'l' :: X) = some X := by
    intro X
    simp [stripLit]
  simp only [htype] at hq
  simp [linkMatchAt, hrel, htype, stripLit_self_append, hstrip, dropWhile_spacesL,
    List.dropWhile_cons, h1, h2, h3, hq]

/-- C6: a PUT-create or POST whose Link header matches the ldp:Resource
rel=type pattern produces a resource whose interaction model is RDFSource
regardless of the RDF types in the body; and the pattern is recognized for
any amounts of optional whitespace around the semicolon and the equals sign
and for a rel value that is a quoted multi-token list containing `type`. -/
theorem c6_resource_link_override
    (req1 : Request) (upd1 : Nat) (document : Document)
    (req2 : Request) (container : Document) (reserve : String → Nat) (now : Nat)
    (entity : Document) :
    (hasResourceLink req1.link = true →
      (putCreate req1 upd1 document).updated.map (fun d => d.interactionModel) =
        some (some ldp.RDFSource)) ∧
    (hasResourceLink req2.link = true →
      container.interactionModel.isSome = true →
      (reqIs req2 media.turtle || reqIs req2 media.jsonld || reqIs req2 media.json) = true →
      (assignURI req2.fullURL req2.slug now reserve).status = 201 →
      (post req2 200 container reserve now (some entity) 201).updated.map
          (fun d => d.interactionModel) =
        some (some ldp.RDFSource)) ∧
    (∀ n1 n2 n3 n4 : Nat,
      hasResourceLink (some (String.mk (ldpResourceLinkLit ++ spacesL n1 ++ [';'] ++
        spacesL n2 ++ "rel".data ++ spacesL n3 ++ ['='] ++ spacesL n4 ++
        "\"type http://example.net/relation/other\"".data))) = true) := by
  have hne : (ldp.RDFSource : String) ≠ ldp.DirectContainer := by decide
  refine ⟨?_, ?_, ?_⟩
  · intro hl
    simp [putCreate, hl, isMembershipPatternValid, hne]
  · intro hl him hct hres
    have hc : container.interactionModel ≠ none := by
      cases h : container.interactionModel <;> simp_all
    cases hdir : (container.interactionModel == some ldp.DirectContainer) <;>
      cases himo : container.isMemberOfRelation <;>
        simp [post, hc, hct, hres, hl, isMembershipPatternValid, hne, hdir, himo]
  · intro n1 n2 n3 n4
    simpa [hasResourceLink] using
      scanLink_of_head _ (linkMatchAt_ws n1 n2 n3 n4 _ (by decide))

/-- C6 witness: a PUT-create of a BasicContainer-typed body with
Link: <http://www.w3.org/ns/ldp#Resource>; rel="type" yields an RDFSource. -/
theorem c6_resource_link_override_witness :
    (putCreate
        { fullURL := "http://h/r/x",
          link := some "<http://www.w3.org/ns/ldp#Resource>; rel=\"type\"" } 201
        { triples :=
            [{ subject := "http://h/r/x", predicate := rdf.type,
               object := ldp.BasicContainer }] }).updated.map (fun d => d.interactionModel) =
      some (some ldp.RDFSource) :=
  (c6_resource_link_override
      { fullURL := "http://h/r/x",
        link := some "<http://www.w3.org/ns/ldp#Resource>; rel=\"type\"" } 201
      { triples :=
          [{ subject := "http://h/r/x", predicate := rdf.type,
             object := ldp.BasicContainer }] }
      {} {} (fun _ => 201) 0 {}).1 (by decide)

/-- C4 counterexample: in the header
`omit=http://www.w3.org/ns/ldp#PreferContainment; foo` the omit token
appears bare, but the bare alternative of the hasPrefer regex is anchored
at the end of the header value, so it does not match; containment is
therefore still emitted for a container GET and no Preference-Applied is
reported — against the claim's "a preference token matches whether it
appears bare or inside a quoted space-separated list". -/
theorem c4_bare_token_counterexample :
    ({ prefer := some "omit=http://www.w3.org/ns/ldp#PreferContainment; foo" } : Request).prefer =
      some ("omit=" ++ ldp.PreferContainment ++ "; foo") ∧
    hasPreferOmit (some { prefer := some "omit=http://www.w3.org/ns/ldp#PreferContainment; foo" })
      ldp.PreferContainment = false ∧
    insertCalculatedTriples
        (some { prefer := some "omit=http://www.w3.org/ns/ldp#PreferContainment; foo" })
        { uri := "http://h/r/c1", interactionModel := some ldp.BasicContainer }
        (fun _ => ["http://h/r/c1/a"]) =
      some ({ uri := "http://h/r/c1", interactionModel := some ldp.BasicContainer,
              triples :=
                [{ subject := "http://h/r/c1", predicate := ldp.contains,
                   object := "http://h/r/c1/a" }] }, false) := by
  decide

theorem isSome_of_ite_some {α : Type} {c : Prop} [Decidable c] (x y : α) :
    (if c then some x else some y).isSome = true := by
  split <;> rfl

set_option maxHeartbeats 8000000 in
/-- C4 (amended): for a GET of a container that produces a response — a
container whose membershipResourceFor is an empty (as opposed to absent)
pattern list never responds, a quirk of the source's zero-iteration
forEach counter — and whose stored graph holds no ldp:contains triples and
whose member relations are not ldp:contains, the containment triple
(container, ldp:contains, m) is present in the result exactly when m is a
member and include=PreferContainment matched, or neither
omit=PreferContainment nor a minimal-container preference matched; and
Preference-Applied is reported exactly when a minimal-container
preference, an include/omit of PreferContainment, or — for a Direct
Container declaring hasMemberRelation, or a membership resource — an
include/omit of PreferMembership matched; where a token matches inside a
quoted space-separated list anywhere in the header but bare only at the
very end of the header value. -/
theorem c4_containment_preferences (req : Request) (document : Document)
    (getMT : String → List String) (m : String)
    (him : document.interactionModel = some ldp.BasicContainer ∨
      document.interactionModel = some ldp.DirectContainer)
    (hfor : document.membershipResourceFor ≠ some [])
    (hnoc : ∀ t ∈ document.triples, t.predicate ≠ ldp.contains)
    (hhm : document.hasMemberRelation ≠ some ldp.contains)
    (hpat : ∀ ps, document.membershipResourceFor = some ps →
      ∀ p ∈ ps, p.hasMemberRelation ≠ some ldp.contains) :
    (insertCalculatedTriples (some req) document getMT).isSome = true ∧
    (∀ doc2 applied,
      insertCalculatedTriples (some req) document getMT = some (doc2, applied) →
      (applied =
        ((hasPreferInclude (some req) ldp.PreferMinimalContainer ||
            hasPreferInclude (some req) ldp.PreferEmptyContainer) ||
          hasPreferInclude (some req) ldp.PreferContainment ||
          hasPreferOmit (some req) ldp.PreferContainment ||
          (((document.interactionModel == some ldp.DirectContainer &&
              document.hasMemberRelation.isSome) ||
            document.membershipResourceFor.isSome) &&
            (hasPreferInclude (some req) ldp.PreferMembership ||
              hasPreferOmit (some req) ldp.PreferMembership)))) ∧
      (((⟨document.uri, ldp.contains, m⟩ : Triple) ∈ doc2.triples) ↔
        (m ∈ getMT document.uri ∧
          (hasPreferInclude (some req) ldp.PreferContainment ||
            (!hasPreferOmit (some req) ldp.PreferContainment &&
              !(hasPreferInclude (some req) ldp.PreferMinimalContainer ||
                hasPreferInclude (some req) ldp.PreferEmptyContainer))) = true))) := by
  have hne : document.interactionModel ≠ none := by
    rcases him with h | h <;> simp [h]
  have hpredne : (ldp.contains : String) ≠ document.hasMemberRelation.getD jsUndefined := by
    cases h : document.hasMemberRelation with
    | none => simp [jsUndefined]; decide
    | some v =>
      simp only [Option.getD_some]
      intro heq
      exact hhm (by rw [h, heq])
  have hnomem : ({ subject := document.uri, predicate := ldp.contains, object := m } : Triple) ∉
      document.triples := fun hmem => hnoc _ hmem rfl
  cases hfor2 : document.membershipResourceFor with
  | none =>
    constructor
    · unfold insertCalculatedTriples insertMembership
      rw [hfor2]
      simp only [Option.some_bind]
      repeat' split
      all_goals simp
    · intro doc2 applied heq
      unfold insertCalculatedTriples insertMembership at heq
      rw [hfor2] at heq
      by_cases hdcc : (document.interactionModel = some ldp.DirectContainer ∧
          document.hasMemberRelation.isSome = true)
      · obtain ⟨hd1, hd2⟩ := hdcc
        cases hm1 : (hasPreferInclude (some req) ldp.PreferMinimalContainer ||
            hasPreferInclude (some req) ldp.PreferEmptyContainer) <;>
          cases hic : hasPreferInclude (some req) ldp.PreferContainment <;>
            cases hoc : hasPreferOmit (some req) ldp.PreferContainment <;>
              cases him2 : hasPreferInclude (some req) ldp.PreferMembership <;>
                cases hom2 : hasPreferOmit (some req) ldp.PreferMembership <;>
                  (simp [hne, hd1, hd2, hm1, hic, hoc, him2, hom2] at heq
                   obtain ⟨h1, h2⟩ := heq
                   subst h1
                   subst h2
                   refine ⟨by simp [hfor2, hd1, hd2, hm1, hic, hoc, him2, hom2], ?_⟩
                   simp [hd1, hd2, hm1, hic, hoc, him2, hom2, List.mem_append,
                     List.mem_flatMap, List.mem_map, Triple.mk.injEq, hnomem, hpredne])
      · have hdccB : (document.interactionModel == some ldp.DirectContainer &&
            document.hasMemberRelation.isSome) = false := by
          rw [Bool.eq_false_iff]
          intro hb
          exact hdcc (by simpa using hb)
        cases hm1 : (hasPreferInclude (some req) ldp.PreferMinimalContainer ||
            hasPreferInclude (some req) ldp.PreferEmptyContainer) <;>
          cases hic : hasPreferInclude (some req) ldp.PreferContainment <;>
            cases hoc : hasPreferOmit (some req) ldp.PreferContainment <;>
              (simp [hne, hdcc, hm1, hic, hoc] at heq
               obtain ⟨h1, h2⟩ := heq
               subst h1
               subst h2
               refine ⟨by simp [hfor2, hdccB, hm1, hic, hoc], ?_⟩
               simp [hdccB, hm1, hic, hoc, List.mem_append, List.mem_flatMap,
                 List.mem_map, Triple.mk.injEq, hnomem, hpredne])
  | some ps =>
    have hps : ps ≠ [] := fun h => hfor (by rw [hfor2, h])
    have hempty : ps.isEmpty = false := by simpa using hps
    have hmsne : ∀ p ∈ ps, (ldp.contains : String) ≠ p.hasMemberRelation.getD jsUndefined := by
      intro p hp
      have h := hpat ps hfor2 p hp
      cases hh : p.hasMemberRelation with
      | none => simp [jsUndefined]; decide
      | some v =>
        simp only [Option.getD_some]
        intro heq2
        exact h (by rw [hh, heq2])
    have hmsne2 : ∀ p ∈ ps, p.hasMemberRelation.getD jsUndefined ≠ (ldp.contains : String) :=
      fun p hp => (hmsne p hp).symm
    have hpredne2 : document.hasMemberRelation.getD jsUndefined ≠ (ldp.contains : String) :=
      hpredne.symm
    constructor
    · unfold insertCalculatedTriples insertMembership
      rw [hfor2]
      simp only [Option.some_bind, hempty]
      repeat' split
      all_goals simp_all [isSome_of_ite_some]
    · intro doc2 applied heq
      unfold insertCalculatedTriples insertMembership at heq
      rw [hfor2] at heq
      by_cases hdcc : (document.interactionModel = some ldp.DirectContainer ∧
          document.hasMemberRelation.isSome = true)
      · obtain ⟨hd1, hd2⟩ := hdcc
        cases hom2 : hasPreferOmit (some req) ldp.PreferMembership <;>
          cases him2 : hasPreferInclude (some req) ldp.PreferMembership <;>
            cases hm1 : (hasPreferInclude (some req) ldp.PreferMinimalContainer ||
                hasPreferInclude (some req) ldp.PreferEmptyContainer) <;>
              cases hic : hasPreferInclude (some req) ldp.PreferContainment <;>
                cases hoc : hasPreferOmit (some req) ldp.PreferContainment <;>
                  (simp [hne, hempty, hd1, hd2, hm1, hic, hoc, him2, hom2] at heq
                   obtain ⟨h1, h2⟩ := heq
                   subst h1
                   subst h2
                   refine ⟨by simp [hfor2, hd1, hd2, hm1, hic, hoc, him2, hom2], ?_⟩
                   simp [hd1, hd2, hm1, hic, hoc, him2, hom2, List.mem_append,
                     List.mem_flatMap, List.mem_map, Triple.mk.injEq, hnomem, hpredne,
                     hpredne2, hmsne, hmsne2] <;>
                     (intro x hx x1 hx1 h1 h2 h3
                      exact absurd h2 (hmsne2 x hx)))
      · have hdccB : (document.interactionModel == some ldp.DirectContainer &&
            document.hasMemberRelation.isSome) = false := by
          rw [Bool.eq_false_iff]
          intro hb
          exact hdcc (by simpa using hb)
        cases hom2 : hasPreferOmit (some req) ldp.PreferMembership <;>
          cases him2 : hasPreferInclude (some req) ldp.PreferMembership <;>
            cases hm1 : (hasPreferInclude (some req) ldp.PreferMinimalContainer ||
                hasPreferInclude (some req) ldp.PreferEmptyContainer) <;>
              cases hic : hasPreferInclude (some req) ldp.PreferContainment <;>
                cases hoc : hasPreferOmit (some req) ldp.PreferContainment <;>
                  (simp [hne, hempty, hdcc, hm1, hic, hoc, him2, hom2] at heq
                   obtain ⟨h1, h2⟩ := heq
                   subst h1
                   subst h2
                   refine ⟨by simp [hfor2, hdccB, hm1, hic, hoc, him2, hom2], ?_⟩
                   simp [hdccB, hm1, hic, hoc, him2, hom2, List.mem_append,
                     List.mem_flatMap, List.mem_map, Triple.mk.injEq, hnomem, hpredne,
                     hpredne2, hmsne, hmsne2] <;>
                     (intro x hx x1 hx1 h1 h2 h3
                      exact absurd h2 (hmsne2 x hx)))

/-- C4 witness: a GET of a BasicContainer that is also the membership
resource of a Direct Container, with a quoted include=PreferContainment
preference, goes through insertCalculatedTriples and produces a response. -/
theorem c4_containment_preferences_witness :
    (insertCalculatedTriples
        (some
          { prefer :=
              some
                "return=representation; include=\"http://www.w3.org/ns/ldp#PreferContainment\"" })
        { uri := "http://h/r/c1", name := some "http://h/r/c1",
          interactionModel := some ldp.BasicContainer,
          membershipResourceFor := some
            [{ container := "http://h/r/c2", hasMemberRelation := some "http://ex/has" }] }
        (fun _ => ["http://h/r/c1/a"])).isSome = true :=
  (c4_containment_preferences
      { prefer :=
          some
            "return=representation; include=\"http://www.w3.org/ns/ldp#PreferContainment\"" }
      { uri := "http://h/r/c1", name := some "http://h/r/c1",
        interactionModel := some ldp.BasicContainer,
        membershipResourceFor := some
          [{ container := "http://h/r/c2", hasMemberRelation := some "http://ex/has" }] }
      (fun _ => ["http://h/r/c1/a"]) "http://h/r/c1/a"
      (Or.inl rfl) (by decide) (by simp) (by decide)
      (by
        intro ps h
        cases h
        decide)).1

/-- C7 witness: a POST whose body fails to parse releases the reserved URI
and responds 400. -/
theorem c7_post_failure_releases_uri_witness :
    post { fullURL := "http://h/r/c1", contentType := some media.turtle } 200
        { uri := "http://h/r/c1", interactionModel := some ldp.BasicContainer }
        (fun _ => 201) 5 none 201 =
      { status := 400, allow := none, location := none, released := true,
        updated := none, inserted := [] } :=
  (c7_post_failure_releases_uri
      { fullURL := "http://h/r/c1", contentType := some media.turtle }
      { uri := "http://h/r/c1", interactionModel := some ldp.BasicContainer }
      (fun _ => 201) 5 none 201
      rfl (by decide) (by simp [assignURI, uniqueURI])).1 rfl
